import Mathlib

/-!
Verification development for the IM Creator repository (`src/server`).

This file shallowly embeds the slide-plan resolver, the layout
recommendation component, the change-impact engine, the usage ledger and
the text utilities of the repository, and proves or refutes the spec
claims about them.

Python values are modelled by the inductive type `PyVal`; a Python dict
is an association list.  A Python function that can raise `TypeError`
is modelled in `Option` (with `none` standing for the raised exception).
-/

/-- Model of a Python value as it appears in an `InputRecord`:
`None`, booleans, integers, strings, lists and dicts. -/
inductive PyVal where
  | pnone : PyVal
  | pbool : Bool → PyVal
  | pint : Int → PyVal
  | pstr : String → PyVal
  | plist : List PyVal → PyVal
  | pdict : List (String × PyVal) → PyVal
deriving Repr

/-- Python truthiness (`bool(v)`): `None`, `False`, `0`, `""`, `[]`,
and the empty dict are falsy; everything else is truthy. -/
def PyVal.truthy : PyVal → Bool
  | .pnone => false
  | .pbool b => b
  | .pint n => n != 0
  | .pstr s => s != ""
  | .plist xs => !xs.isEmpty
  | .pdict kvs => !kvs.isEmpty

/-- Python `==` on `PyVal`.  Structural, with the numeric identification
`True == 1` / `False == 0`.  (Python dict equality is order-independent;
this model compares dict entries in order, which is equality-preserving
for dicts built in a fixed order.  No claim in this file depends on
reordered-dict equality.) -/
def PyVal.pyEq : PyVal → PyVal → Bool
  | .pnone, .pnone => true
  | .pbool a, .pbool b => a == b
  | .pbool a, .pint n => (if a then (1 : Int) else 0) == n
  | .pint n, .pbool a => n == (if a then (1 : Int) else 0)
  | .pint a, .pint b => a == b
  | .pstr a, .pstr b => a == b
  | .plist a, .plist b => go a b
  | .pdict a, .pdict b => goD a b
  | _, _ => false
where
  go : List PyVal → List PyVal → Bool
    | [], [] => true
    | x :: xs, y :: ys => x.pyEq y && go xs ys
    | _, _ => false
  goD : List (String × PyVal) → List (String × PyVal) → Bool
    | [], [] => true
    | (k1, v1) :: xs, (k2, v2) :: ys => k1 == k2 && v1.pyEq v2 && goD xs ys
    | _, _ => false

/-- An input record: a Python dict from field name to value. -/
def InputRecord := List (String × PyVal)

/-- `d.get(k)`: the first value stored under `k`, else `None`. -/
def dictGet (d : InputRecord) (k : String) : PyVal :=
  match d.find? (fun kv => kv.1 == k) with
  | some kv => kv.2
  | none => .pnone

/-- `d.get(k, default)`: the stored value when the key is present
(even if that value is `None`), else the default. -/
def dictGetD (d : InputRecord) (k : String) (dflt : PyVal) : PyVal :=
  match d.find? (fun kv => kv.1 == k) with
  | some kv => kv.2
  | none => dflt

/-- Python `a or b`: `a` when truthy, else `b`. -/
def pyOr (a b : PyVal) : PyVal := if a.truthy then a else b

/-- Python `len(v)`; `none` models the `TypeError` raised on values
that have no length. -/
def pyLen : PyVal → Option Nat
  | .pstr s => some s.length
  | .plist xs => some xs.length
  | .pdict kvs => some kvs.length
  | _ => none

/-- Substring occurrence test on character lists (Python `x in s` for
strings; the empty needle occurs in every string). -/
def subOccurs (needle : List Char) : List Char → Bool
  | [] => needle.isEmpty
  | c :: rest => needle.isPrefixOf (c :: rest) || subOccurs needle rest

/-- Python `x in v` for a string `x`: substring test on strings,
`==`-membership on lists, key membership on dicts; `none` models the
`TypeError` raised on non-container values. -/
def pyInStr (x : String) : PyVal → Option Bool
  | .pstr s => some (subOccurs x.data s.data)
  | .plist xs => some (xs.any (fun v => PyVal.pyEq (.pstr x) v))
  | .pdict kvs => some (kvs.any (fun kv => kv.1 == x))
  | _ => none

/-- A value on which `len` and `in` are defined (string, list or dict). -/
def containerish : PyVal → Bool
  | .pstr _ => true
  | .plist _ => true
  | .pdict _ => true
  | _ => false

/-! ## Document-type catalog (`src/server/models.py`, `DOCUMENT_CONFIGS`) -/

structure DocumentTypeConfig where
  name : String
  slide_range : String
  min_slides : Nat
  max_slides : Nat
  include_financial_detail : Bool
  include_sensitive_data : Bool
  include_client_names : Bool
  max_case_studies : Nat
  required_slides : List String
  optional_slides : List String
deriving Repr, DecidableEq

def managementPresentationConfig : DocumentTypeConfig :=
  { name := "Management Presentation"
    slide_range := "12-18 slides"
    min_slides := 12, max_slides := 18
    include_financial_detail := true
    include_sensitive_data := true
    include_client_names := true
    max_case_studies := 2
    required_slides := ["title", "disclaimer", "executive-summary",
      "investment-highlights", "services", "clients", "financials", "thank-you"]
    optional_slides := ["leadership", "case-studies", "growth", "synergies",
      "market-position"] }

def cimConfig : DocumentTypeConfig :=
  { name := "Confidential Information Memorandum"
    slide_range := "20-35 slides"
    min_slides := 20, max_slides := 35
    include_financial_detail := true
    include_sensitive_data := true
    include_client_names := true
    max_case_studies := 5
    required_slides := ["title", "disclaimer", "toc", "executive-summary",
      "investment-highlights", "company-overview", "leadership", "industry",
      "services", "clients", "financials", "growth", "synergies", "risks",
      "thank-you"]
    optional_slides := ["case-studies", "market-position", "team-bios",
      "financial-detail"] }

def teaserConfig : DocumentTypeConfig :=
  { name := "Teaser Document"
    slide_range := "5-8 slides"
    min_slides := 5, max_slides := 8
    include_financial_detail := false
    include_sensitive_data := false
    include_client_names := false
    max_case_studies := 0
    required_slides := ["title", "disclaimer", "executive-summary",
      "services", "thank-you"]
    optional_slides := ["investment-highlights", "market-position"] }

def DOCUMENT_CONFIGS : List (String × DocumentTypeConfig) :=
  [("management-presentation", managementPresentationConfig),
   ("cim", cimConfig),
   ("teaser", teaserConfig)]

/-- `DOCUMENT_CONFIGS.get(document_type, DOCUMENT_CONFIGS["management-presentation"])`. -/
def documentConfigsGet (document_type : String) : DocumentTypeConfig :=
  match DOCUMENT_CONFIGS.find? (fun kv => kv.1 == document_type) with
  | some kv => kv.2
  | none => managementPresentationConfig

/-! ## Slide-plan resolver (`src/server/utils.py`,
`get_slides_for_document_type` / `should_include_optional_slide`) -/

/-- The strict main slide ordering (`MAIN_SLIDE_ORDER` in
`get_slides_for_document_type`); "thank-you" is deliberately absent. -/
def MAIN_SLIDE_ORDER : List String :=
  ["title", "disclaimer", "toc", "executive-summary", "investment-highlights",
   "company-overview", "services", "products", "tech-partnerships", "clients",
   "client-retention", "financials", "financial-detail", "case-study",
   "growth", "growth-goals", "market-position", "competitive-detail",
   "leadership", "synergies", "risks", "transaction-summary"]

/-- `APPENDIX_ORDER` from the source (declared there but not consulted by
the appendix-append code, which hard-codes the three identifiers). -/
def APPENDIX_ORDER : List String :=
  ["appendix-financials", "appendix-case-studies", "appendix-team-bios"]

/-- `should_include_optional_slide(slide_type, data)`; `none` models a
raised `TypeError` (possible only via the `len` in the
"appendix-case-studies" rule).  Unknown slide types are included by
default (`return True`). -/
def shouldIncludeOptionalSlide (slide_type : String) (d : InputRecord) :
    Option Bool :=
  if slide_type == "toc" then
    some ((dictGet d "documentType").pyEq (.pstr "cim"))
  else if slide_type == "leadership" then
    some (pyOr (dictGet d "founderName") (dictGet d "leadershipTeam")).truthy
  else if slide_type == "company-overview" then
    some (dictGet d "companyDescription").truthy
  else if slide_type == "case-study" then
    some (pyOr (dictGet d "caseStudies") (dictGet d "cs1Client")).truthy
  else if slide_type == "growth" then
    some (pyOr (dictGet d "growthDrivers") (dictGet d "shortTermGoals")).truthy
  else if slide_type == "growth-goals" then
    some (pyOr (dictGet d "shortTermGoals") (dictGet d "mediumTermGoals")).truthy
  else if slide_type == "synergies" then
    some (pyOr (dictGet d "synergiesStrategic") (dictGet d "synergiesFinancial")).truthy
  else if slide_type == "market-position" then
    some (pyOr (dictGet d "marketSize") (dictGet d "competitiveAdvantages")).truthy
  else if slide_type == "competitive-detail" then
    some (pyOr (dictGet d "competitiveAdvantages") (dictGet d "competitorLandscape")).truthy
  else if slide_type == "risks" then
    some (pyOr (pyOr (dictGet d "businessRisks") (dictGet d "marketRisks"))
      (dictGet d "operationalRisks")).truthy
  else if slide_type == "products" then
    some (dictGet d "products").truthy
  else if slide_type == "tech-partnerships" then
    some (dictGet d "techPartnerships").truthy
  else if slide_type == "client-retention" then
    some (pyOr (dictGet d "netRetention") (dictGet d "topClients")).truthy
  else if slide_type == "financial-detail" then
    some (pyOr (dictGet d "revenueFY24") (dictGet d "revenueFY25")).truthy
  else if slide_type == "investment-highlights" then
    some (dictGet d "investmentHighlights").truthy
  else if slide_type == "transaction-summary" then
    some ((dictGet d "documentType").pyEq (.pstr "cim"))
  else if slide_type == "appendix-financials" then
    some (dictGet d "includeFinancialAppendix").truthy
  else if slide_type == "appendix-case-studies" then
    if (dictGet d "includeAdditionalCaseStudies").truthy then
      (pyLen (dictGetD d "caseStudies" (.plist []))).map (fun n => decide (n > 2))
    else
      some false
  else if slide_type == "appendix-team-bios" then
    some (dictGet d "includeTeamBios").truthy
  else
    some true

/-- The main `for slide_type in MAIN_SLIDE_ORDER` loop of the resolver:
required slides unconditionally, optional slides by predicate. -/
def mainSlideLoop (required optional : List String) (d : InputRecord) :
    List String → Option (List String)
  | [] => some []
  | st :: rest =>
    if required.contains st then
      (mainSlideLoop required optional d rest).map (fun tail => st :: tail)
    else if optional.contains st then do
      let inc ← shouldIncludeOptionalSlide st d
      let tail ← mainSlideLoop required optional d rest
      pure (if inc then st :: tail else tail)
    else
      mainSlideLoop required optional d rest

/-- `if x not in slides: slides.append(x)`. -/
def appendIfNew (slides : List String) (x : String) : List String :=
  if slides.contains x then slides else slides ++ [x]

/-- `get_slides_for_document_type(document_type, data)` from
`src/server/utils.py`, written with explicit `Option.bind`: `none`
models a raised `TypeError` (from `in` / `len` applied to a
non-container value).  As in the source, `len(case_studies)` is
evaluated only when the "case-studies-extra" membership test succeeded,
and the resulting append condition is the conjunction of the two. -/
def getSlidesForDocumentType (document_type : String) (data : InputRecord) :
    Option (List String) :=
  let config := documentConfigsGet document_type
  (mainSlideLoop config.required_slides config.optional_slides
      data MAIN_SLIDE_ORDER).bind fun slides =>
  let include_appendix := dictGetD data "includeAppendix" (.plist [])
  let case_studies := pyOr (dictGet data "caseStudies") (.plist [])
  (pyInStr "financial-detail" include_appendix).bind fun finDetSel =>
  let slides1 :=
    if finDetSel && (dictGet data "revenueByService").truthy then
      slides ++ ["appendix-financials"]
    else slides
  (pyInStr "case-studies-extra" include_appendix).bind fun csExtraSel =>
  ((if csExtraSel then (pyLen case_studies).map (fun n => decide (n > 2))
    else some false) : Option Bool).bind fun csAppend =>
  let slides2 :=
    if csAppend then slides1 ++ ["appendix-case-studies"] else slides1
  (pyInStr "team-bios" include_appendix).bind fun teamBiosSel =>
  let slides3 :=
    if teamBiosSel && (dictGet data "teamBios").truthy then
      slides2 ++ ["appendix-team-bios"]
    else slides2
  let variants := dictGetD data "generateVariants" (.plist [])
  (pyInStr "synergy" variants).bind fun synSel =>
  let slides4 :=
    if synSel && (pyOr (dictGet data "synergiesStrategic")
        (dictGet data "synergiesFinancial")).truthy then
      appendIfNew slides3 "synergies"
    else slides3
  (pyInStr "market" variants).bind fun mktSel =>
  let slides5 :=
    if mktSel && (dictGet data "competitorLandscape").truthy then
      appendIfNew slides4 "market-position"
    else slides4
  some (slides5 ++ ["thank-you"])

/-- Proof-side invariant for the append stages of the resolver: the
accumulated list is duplicate-free, contains all slides produced by the
main loop, agrees with the main-loop output on the required-and-ordered
slides, and draws its elements from `allowed`. -/
structure ResolverInv (req main allowed s : List String) : Prop where
  nodup : s.Nodup
  mem_main : ∀ x, x ∈ main → x ∈ s
  filter_eq : s.filter (fun x => req.contains x && MAIN_SLIDE_ORDER.contains x)
      = main.filter (fun x => req.contains x && MAIN_SLIDE_ORDER.contains x)
  subAllowed : ∀ x, x ∈ s → x ∈ allowed

/-- Concrete input for end-to-end scenario B of the spec: non-empty
`founderName`, four case studies, and the "case-studies-extra" appendix
opt-in. -/
def cimScenarioB : InputRecord :=
  [("founderName", .pstr "Jane Doe"),
   ("caseStudies", .plist [.pdict [("client", .pstr "Acme")],
      .pdict [("client", .pstr "Beta")], .pdict [("client", .pstr "Gamma")],
      .pdict [("client", .pstr "Delta")]]),
   ("includeAppendix", .plist [.pstr "case-studies-extra"])]

/-! ## Text utilities (`src/server/utils.py`,
`condense_text` / `truncate_text`) -/

/-- Python whitespace (`\s` and `str.strip`), ASCII subset: space, tab,
newline, carriage return, vertical tab, form feed. -/
def pyIsSpace (c : Char) : Bool :=
  c == ' ' || c == '\t' || c == '\n' || c == '\r' ||
  c == Char.ofNat 11 || c == Char.ofNat 12

/-- `str.strip()` on a character list: drop whitespace at both ends. -/
def pyStripChars (l : List Char) : List Char :=
  ((l.dropWhile pyIsSpace).reverse.dropWhile pyIsSpace).reverse

/-- `str.strip()`. -/
def pyStrip (s : String) : String := String.mk (pyStripChars s.data)

/-- A regex word character (`\w`, ASCII subset: letters, digits,
underscore), as used by the `\b` boundaries in `condense_text`. -/
def isWordChar (c : Char) : Bool := c.isAlphanum || c == '_'

/-- The `ABBREVIATIONS` table of `utils.py` in dict insertion order. -/
def ABBREVIATIONS : List (String × String) :=
  [("and", "&"), ("with", "w/"), ("without", "w/o"), ("through", "thru"),
   ("information", "info"), ("technology", "tech"),
   ("technologies", "tech"), ("management", "mgmt"),
   ("development", "dev"), ("application", "app"),
   ("applications", "apps"), ("organization", "org"),
   ("international", "intl"), ("infrastructure", "infra"),
   ("implementation", "impl"), ("transformation", "transform"),
   ("approximately", "~"), ("percentage", "%"), ("percent", "%"),
   ("number", "#"), ("operations", "ops"), ("operational", "ops"),
   ("processing", "proc"), ("performance", "perf"),
   ("specializing", "spec."), ("enterprise", "enterp."),
   ("artificial intelligence", "AI"), ("machine learning", "ML")]

/-- Case-insensitive match of a lowercase pattern against the front of a
text; returns the last matched text character and the remainder.  The
empty pattern returns `none` (the abbreviation table has no empty key). -/
def tryMatchCI : List Char → List Char → Option (Char × List Char)
  | [], _ => none
  | [p], c :: rest => if c.toLower == p then some (c, rest) else none
  | p :: ps, c :: rest => if c.toLower == p then tryMatchCI ps rest else none
  | _, [] => none

/-- One left-to-right pass of `re.sub(rf"\b{full}\b", abbrev, text,
flags=IGNORECASE)` for a lowercase word (or word-space-word) pattern
`full`: at each position, replace a case-insensitive occurrence of
`full` that sits on word boundaries (the characters before and after
the match, taken from the original text, are not word characters).
Fuel-driven recursion; the fuel is the text length, which suffices
because every step consumes at least one character. -/
def reSubWordGo (full abbr : List Char) :
    Nat → Option Char → List Char → List Char
  | 0, _, l => l
  | _ + 1, _, [] => []
  | fuel + 1, prev, c :: rest =>
    match tryMatchCI full (c :: rest) with
    | some (lastc, rem) =>
      if (match prev with | none => true | some p => !isWordChar p) &&
         (match rem with | [] => true | r :: _ => !isWordChar r) then
        abbr ++ reSubWordGo full abbr fuel (some lastc) rem
      else c :: reSubWordGo full abbr fuel (some c) rest
    | none => c :: reSubWordGo full abbr fuel (some c) rest

/-- `pattern.sub(abbrev, result)` for one abbreviation entry. -/
def reSubWord (full abbr : String) (l : List Char) : List Char :=
  reSubWordGo full.data abbr.data l.length none l

/-- `re.sub(r"\s+", " ", result)`: collapse every whitespace run to a
single space. -/
def collapseWSGo : Bool → List Char → List Char
  | _, [] => []
  | prevSpace, c :: rest =>
    if pyIsSpace c then
      if prevSpace then collapseWSGo true rest
      else ' ' :: collapseWSGo true rest
    else c :: collapseWSGo false rest

/-- `condense_text(text)` from `src/server/utils.py`: apply every
abbreviation with word boundaries and case-insensitivity, then
normalize whitespace and strip. -/
def condense_text (text : String) : String :=
  if text == "" then ""
  else
    let result := ABBREVIATIONS.foldl
      (fun acc kv => reSubWord kv.1 kv.2 acc) text.data
    String.mk (pyStripChars (collapseWSGo false result))

/-- A sentence-ending character of the `[^.!?]+[.!?]+` pattern. -/
def isSentencePunct (c : Char) : Bool := c == '.' || c == '!' || c == '?'

/-- `re.findall(r"[^.!?]+[.!?]+", condensed)`: repeatedly skip stray
punctuation, then take a maximal non-punctuation run followed by a
maximal punctuation run; a trailing run without closing punctuation is
not a match.  Fuel-driven; the fuel is the text length. -/
def findSentencesGo : Nat → List Char → List String
  | 0, _ => []
  | _ + 1, [] => []
  | fuel + 1, c :: rest =>
    if isSentencePunct c then findSentencesGo fuel rest
    else
      let a := (c :: rest).takeWhile (fun x => !isSentencePunct x)
      let r1 := (c :: rest).dropWhile (fun x => !isSentencePunct x)
      let b := r1.takeWhile isSentencePunct
      let r2 := r1.dropWhile isSentencePunct
      if b.isEmpty then []
      else String.mk (a ++ b) :: findSentencesGo fuel r2

def findSentences (l : List Char) : List String := findSentencesGo l.length l

/-- The sentence-accumulation loop of `truncate_text`: append whole
sentences while the accumulated length stays within `max_length`, stop
at the first sentence that does not fit. -/
def accumSentences (max_length : Int) : List String → String → String
  | [], result => result
  | sentence :: rest, result =>
    if ((result ++ sentence).length : Int) ≤ max_length then
      accumSentences max_length rest (result ++ sentence)
    else result

/-- Python slicing `s[:c]` for an arbitrary integer bound (a negative
bound counts from the end). -/
def pySliceTo (l : List Char) (c : Int) : List Char :=
  if c < 0 then l.take (l.length - (-c).toNat) else l.take c.toNat

/-- `s.rfind(ch)`: index of the last occurrence, `-1` if absent. -/
def pyRfind (l : List Char) (ch : Char) : Int :=
  match l.reverse.findIdx? (fun c => c == ch) with
  | some i => ((l.length - 1 - i : Nat) : Int)
  | none => -1

/-- The word-boundary tail of `truncate_text`: slice to
`max_length - 2` (with ellipsis), prefer the last space when it lies
past 70 percent of the cutoff, strip, and append "..". -/
def truncateWordFallback (condensed : String) (max_length : Int)
    (use_ellipsis : Bool) : String :=
  let cutoff : Int := max_length - (if use_ellipsis then 2 else 0)
  let truncated := pySliceTo condensed.data cutoff
  let last_space := pyRfind truncated ' '
  if last_space * 10 > cutoff * 7 then
    String.mk (pyStripChars (pySliceTo truncated last_space)) ++
      (if use_ellipsis then ".." else "")
  else
    String.mk (pyStripChars truncated) ++
      (if use_ellipsis then ".." else "")

/-- `truncate_text(text, max_length, use_ellipsis)` from
`src/server/utils.py`.  The float thresholds `max_length * 0.6` and
`cutoff * 0.7` of the source are modelled exactly over the integers
(`10 * len ≥ 6 * max_length`, `10 * last_space > 7 * cutoff`); the
binary-float rounding of `0.6` / `0.7` could only shift the comparison
at exact ties and does not affect the length bound proved below. -/
def truncate_text (text : String) (max_length : Int) (use_ellipsis : Bool) :
    String :=
  if text == "" then ""
  else if (text.length : Int) ≤ max_length then text
  else
    let condensed := condense_text text
    if (condensed.length : Int) ≤ max_length then condensed
    else
      let sentences := findSentences condensed.data
      if !sentences.isEmpty then
        let result := accumSentences max_length sentences ""
        if result != "" && (result.length : Int) * 10 ≥ max_length * 6 then
          pyStrip result
        else truncateWordFallback condensed max_length use_ellipsis
      else truncateWordFallback condensed max_length use_ellipsis

/-! ## Change-impact engine (`src/server/state_manager.py`,
`PresentationStateManager.detect_changes`) -/

/-- Strict structural equality on `PyVal`, as induced by comparing the
`json.dumps` serializations (`dumps(True) = "true"` differs from
`dumps(1) = "1"`, so no bool/int identification here). -/
def PyVal.beqStrict : PyVal → PyVal → Bool
  | .pnone, .pnone => true
  | .pbool a, .pbool b => a == b
  | .pint a, .pint b => a == b
  | .pstr a, .pstr b => a == b
  | .plist a, .plist b => go a b
  | .pdict a, .pdict b => goD a b
  | _, _ => false
where
  go : List PyVal → List PyVal → Bool
    | [], [] => true
    | x :: xs, y :: ys => x.beqStrict y && go xs ys
    | _, _ => false
  goD : List (String × PyVal) → List (String × PyVal) → Bool
    | [], [] => true
    | (k1, v1) :: xs, (k2, v2) :: ys =>
      k1 == k2 && v1.beqStrict v2 && goD xs ys
    | _, _ => false

/-- Insert a key-value pair into a key-sorted association list. -/
def insertByKey (p : String × PyVal) :
    List (String × PyVal) → List (String × PyVal)
  | [] => [p]
  | q :: rest => if p.1 ≤ q.1 then p :: q :: rest else q :: insertByKey p rest

/-- Sort an association list by key (insertion sort), as
`json.dumps(..., sort_keys=True)` does for every object. -/
def sortByKey : List (String × PyVal) → List (String × PyVal)
  | [] => []
  | p :: rest => insertByKey p (sortByKey rest)

/-- Canonical form of a value under `json.dumps(..., sort_keys=True)`:
every nested dict gets its keys sorted.  Two values have equal
serializations exactly when their canonical forms are strictly equal,
so the string comparison of `detect_changes` is modelled by comparing
canonical forms.  Fuel-driven recursion on the value size; the
fuel-exhausted branch is unreachable for `fuel = sizeOf v`. -/
def canonF : Nat → PyVal → PyVal
  | 0, v => v
  | fuel + 1, .plist xs => .plist (xs.map (canonF fuel))
  | fuel + 1, .pdict kvs =>
    .pdict (sortByKey (kvs.map (fun kv => (kv.1, canonF fuel kv.2))))
  | _ + 1, v => v

/-- Executable size of a value, used as canonicalization fuel. -/
def PyVal.psize : PyVal → Nat
  | .pnone => 1
  | .pbool _ => 1
  | .pint _ => 1
  | .pstr _ => 1
  | .plist xs => 1 + go xs
  | .pdict kvs => 1 + goD kvs
where
  go : List PyVal → Nat
    | [] => 0
    | x :: xs => x.psize + 1 + go xs
  goD : List (String × PyVal) → Nat
    | [] => 0
    | kv :: rest => kv.2.psize + 1 + goD rest

def canon (v : PyVal) : PyVal := canonF v.psize v

/-- `isinstance(v, (list, dict))`. -/
def isListOrDict : PyVal → Bool
  | .plist _ => true
  | .pdict _ => true
  | _ => false

/-- `json.dumps(v, sort_keys=True) if v else ""`: a falsy value (None,
empty list, empty dict, but also 0, "", False reaching this branch)
serializes to the empty marker, every truthy value to its canonical
form. -/
def jsonReprForDiff (v : PyVal) : Option PyVal :=
  if v.truthy then some (canon v) else none

/-- Inequality of the two serializations (`old_json != new_json`). -/
def jsonReprNe (a b : PyVal) : Bool :=
  match jsonReprForDiff a, jsonReprForDiff b with
  | none, none => false
  | some x, some y => !(x.beqStrict y)
  | _, _ => true

/-- `detect_changes(old_data, new_data)` from
`src/server/state_manager.py`.  The union of the keys is a Python set
whose iteration order is unspecified; this model fixes first-occurrence
order (old keys, then new-only keys) — every claim about the result
uses membership only.  List- or dict-valued fields compare by
serialization, everything else by Python `==`. -/
def detect_changes (old_data new_data : InputRecord) : List String :=
  let all_keys :=
    (old_data.map (fun kv => kv.1) ++ new_data.map (fun kv => kv.1)).dedup
  all_keys.filter (fun key =>
    let old_value := dictGet old_data key
    let new_value := dictGet new_data key
    if isListOrDict old_value || isListOrDict new_value then
      jsonReprNe old_value new_value
    else
      !(old_value.pyEq new_value))

/-! ## Usage ledger (`src/server/usage_tracker.py`, `UsageTracker`) -/

/-- Per-purpose / per-model breakdown entry. -/
structure UsageBreakdown where
  calls : Nat
  tokens : Nat
  cost : ℚ
deriving Repr

/-- One entry of the capped call log. -/
structure UsageCallRecord where
  timestamp : String
  model : String
  model_name : String
  purpose : String
  input_tokens : Nat
  output_tokens : Nat
  total_tokens : Nat
  cost_usd : ℚ
deriving Repr

/-- The in-memory `self.stats` dict of `UsageTracker`.  Costs are exact
rationals; the Python floats deviate from them only by the binary
rounding the claim already brackets as floating-point tolerance. -/
structure UsageStats where
  total_calls : Nat
  total_input_tokens : Nat
  total_output_tokens : Nat
  total_cost_usd : ℚ
  session_start : String
  calls : List UsageCallRecord
  by_purpose : List (String × UsageBreakdown)
  by_model : List (String × UsageBreakdown)
deriving Repr

/-- The `PRICING` table of `usage_tracker.py`: model id, input rate,
output rate (USD per 1K tokens), display name. -/
def PRICING_TABLE : List (String × ℚ × ℚ × String) :=
  [("claude-opus-4-5-20251101", (0.015, 0.075, "Claude Opus 4.5")),
   ("claude-sonnet-4-5-20250929", (0.003, 0.015, "Claude Sonnet 4.5")),
   ("claude-sonnet-4-20250514", (0.003, 0.015, "Claude Sonnet 4")),
   ("claude-haiku-4-5-20251001", (0.00025, 0.00125, "Claude Haiku 4.5")),
   ("claude-3-5-sonnet-20241022", (0.003, 0.015, "Claude 3.5 Sonnet")),
   ("claude-3-opus-20240229", (0.015, 0.075, "Claude 3 Opus")),
   ("claude-3-haiku-20240307", (0.00025, 0.00125, "Claude 3 Haiku"))]

/-- `PRICING.get(model, PRICING["claude-3-haiku-20240307"])`: unknown
models fall back to the cheapest (Haiku) tier. -/
def pricingGet (model : String) : ℚ × ℚ × String :=
  match PRICING_TABLE.find? (fun kv => kv.1 == model) with
  | some kv => kv.2
  | none => (0.00025, 0.00125, "Claude 3 Haiku")

/-- Round-half-even to an integer, the tie rule of Python `round`.
(Python rounds the binary double; at non-ties the results agree, and
the deviation at ties stays inside the half-ulp bound proved below.) -/
def roundHalfEven (x : ℚ) : Int :=
  let f := ⌊x⌋
  let frac := x - f
  if frac < 1/2 then f
  else if frac > 1/2 then f + 1
  else if f % 2 = 0 then f else f + 1

/-- `round(x, 6)`. -/
def round6 (x : ℚ) : ℚ := (roundHalfEven (x * 1000000) : ℚ) / 1000000

/-- `round(x, 0)`. -/
def round0 (x : ℚ) : ℚ := (roundHalfEven x : ℚ)

/-- Lookup in a breakdown map with the zeroed default the source
installs on first use. -/
def breakdownGet (m : List (String × UsageBreakdown)) (k : String) :
    UsageBreakdown :=
  match m.find? (fun kv => kv.1 == k) with
  | some kv => kv.2
  | none => { calls := 0, tokens := 0, cost := 0 }

/-- Store an entry in a breakdown map: replace in place when the key is
present, append otherwise (Python dict insertion semantics). -/
def breakdownSet (m : List (String × UsageBreakdown)) (k : String)
    (v : UsageBreakdown) : List (String × UsageBreakdown) :=
  if m.any (fun kv => kv.1 == k) then
    m.map (fun kv => if kv.1 == k then (k, v) else kv)
  else m ++ [(k, v)]

/-- `UsageTracker.track_call(model, input_tokens, output_tokens,
purpose)`.  `now` stands for `datetime.now().isoformat()`; the
`_save_stats` disk write is I/O outside this model and does not touch
the in-memory state. -/
def track_call (s : UsageStats) (now model : String)
    (input_tokens output_tokens : Nat) (purpose : String) :
    UsageStats × UsageCallRecord :=
  let pricing := pricingGet model
  let input_cost := (input_tokens : ℚ) / 1000 * pricing.1
  let output_cost := (output_tokens : ℚ) / 1000 * pricing.2.1
  let total_cost := input_cost + output_cost
  let call_record : UsageCallRecord :=
    { timestamp := now
      model := model
      model_name := pricing.2.2
      purpose := purpose
      input_tokens := input_tokens
      output_tokens := output_tokens
      total_tokens := input_tokens + output_tokens
      cost_usd := round6 total_cost }
  let bp := breakdownGet s.by_purpose purpose
  let bp2 : UsageBreakdown :=
    { calls := bp.calls + 1
      tokens := bp.tokens + (input_tokens + output_tokens)
      cost := round6 (bp.cost + total_cost) }
  let bm := breakdownGet s.by_model pricing.2.2
  let bm2 : UsageBreakdown :=
    { calls := bm.calls + 1
      tokens := bm.tokens + (input_tokens + output_tokens)
      cost := round6 (bm.cost + total_cost) }
  let calls2 := s.calls ++ [call_record]
  let calls3 :=
    if calls2.length > 1000 then calls2.drop (calls2.length - 1000)
    else calls2
  ({ s with
      total_calls := s.total_calls + 1
      total_input_tokens := s.total_input_tokens + input_tokens
      total_output_tokens := s.total_output_tokens + output_tokens
      total_cost_usd := round6 (s.total_cost_usd + total_cost)
      by_purpose := breakdownSet s.by_purpose purpose bp2
      by_model := breakdownSet s.by_model pricing.2.2 bm2
      calls := calls3 },
   call_record)

/-- `UsageTracker.reset()` (the disk write is outside the model). -/
def resetStats (now : String) : UsageStats :=
  { total_calls := 0
    total_input_tokens := 0
    total_output_tokens := 0
    total_cost_usd := 0
    session_start := now
    calls := []
    by_purpose := []
    by_model := [] }

/-- The derived fields `get_stats` adds to the spread stats dict. -/
structure UsageStatsView where
  total_calls : Nat
  total_input_tokens : Nat
  total_output_tokens : Nat
  total_cost_usd : ℚ
  session_start : String
  calls : List UsageCallRecord
  by_purpose : List (String × UsageBreakdown)
  by_model : List (String × UsageBreakdown)
  session_duration_hours : ℚ
  average_cost_per_call : ℚ
  average_tokens_per_call : ℚ
deriving Repr

/-- `UsageTracker.get_stats()`; `session_duration_hours` comes from the
wall clock (`_get_session_duration`) and is a parameter of the model. -/
def get_stats (s : UsageStats) (session_duration_hours : ℚ) :
    UsageStatsView :=
  { total_calls := s.total_calls
    total_input_tokens := s.total_input_tokens
    total_output_tokens := s.total_output_tokens
    total_cost_usd := s.total_cost_usd
    session_start := s.session_start
    calls := s.calls
    by_purpose := s.by_purpose
    by_model := s.by_model
    session_duration_hours := session_duration_hours
    average_cost_per_call :=
      round6 (s.total_cost_usd / (max 1 s.total_calls : Nat))
    average_tokens_per_call :=
      round0 (((s.total_input_tokens + s.total_output_tokens : Nat) : ℚ) /
        (max 1 s.total_calls : Nat)) }

/-- One `track_call` invocation in a sequence. -/
structure CallSpec where
  now : String
  model : String
  input_tokens : Nat
  output_tokens : Nat
  purpose : String

/-- Fold a sequence of `track_call` invocations over the stats. -/
def runCalls (s : UsageStats) (specs : List CallSpec) : UsageStats :=
  specs.foldl
    (fun st c =>
      (track_call st c.now c.model c.input_tokens c.output_tokens
        c.purpose).1)
    s

/-- The exact cost the claim attributes to one call:
`(input_tokens/1000)*input_rate + (output_tokens/1000)*output_rate`,
unknown models at the cheapest tier. -/
def callCost (c : CallSpec) : ℚ :=
  (c.input_tokens : ℚ) / 1000 * (pricingGet c.model).1 +
    (c.output_tokens : ℚ) / 1000 * (pricingGet c.model).2.1

/-! ## Layout recommendation component
(`src/server/ai_layout_engine.py` / `src/server/utils.py`) -/

/-- The literal open-brace character (spelled via its code point). -/
def openBraceChar : Char := Char.ofNat 123

/-- The literal close-brace character. -/
def closeBraceChar : Char := Char.ofNat 125

/-- A single-quote character, for Python `repr` of strings. -/
def singleQuote : String := String.singleton (Char.ofNat 39)

/-- Python `repr` of a value (fuel-driven over nested containers;
string escaping inside `repr` is not modelled — no claim feeds
container values with quotes into `str`). -/
def pyReprF : Nat → PyVal → String
  | 0, _ => ""
  | _ + 1, .pnone => "None"
  | _ + 1, .pbool true => "True"
  | _ + 1, .pbool false => "False"
  | _ + 1, .pint n => toString n
  | _ + 1, .pstr s => singleQuote ++ s ++ singleQuote
  | fuel + 1, .plist xs =>
    "[" ++ ", ".intercalate (xs.map (pyReprF fuel)) ++ "]"
  | fuel + 1, .pdict kvs =>
    String.singleton openBraceChar ++
      ", ".intercalate (kvs.map (fun kv =>
        singleQuote ++ kv.1 ++ singleQuote ++ ": " ++ pyReprF fuel kv.2)) ++
      String.singleton closeBraceChar

/-- Python `str(v)`. -/
def pyStr : PyVal → String
  | .pstr s => s
  | .pnone => "None"
  | .pbool true => "True"
  | .pbool false => "False"
  | .pint n => toString n
  | v => pyReprF v.psize v

/-- The nested `count_lines` helper of `build_data_preview`: number of
lines of `str(text)` that are non-blank after stripping. -/
def count_lines (v : PyVal) : Nat :=
  if !v.truthy then 0
  else (((pyStr v).splitOn "\n").filter
    (fun l => !(pyStripChars l.data).isEmpty)).length

/-- `build_data_preview(data, slide_type)` from `src/server/utils.py`;
`none` models the `TypeError` of `len(data.get("caseStudies") or [])`
on a non-container value. -/
def build_data_preview (data : InputRecord) (slide_type : String) :
    Option (List (String × PyVal)) :=
  (pyLen (pyOr (dictGet data "caseStudies") (.plist []))).bind fun csLen =>
  let case_study_count :=
    if csLen ≠ 0 then csLen
    else (if (dictGet data "cs1Client").truthy then 1 else 0) +
      (if (dictGet data "cs2Client").truthy then 1 else 0)
  let base : List (String × PyVal) :=
    [("has_revenue", .pbool (pyOr (dictGet data "revenueFY24")
        (dictGet data "revenueFY25")).truthy),
     ("revenue_years", .pint (([dictGet data "revenueFY24",
        dictGet data "revenueFY25", dictGet data "revenueFY26P",
        dictGet data "revenueFY27P"].filter
          (fun v => v.truthy)).length : Nat)),
     ("service_count",
       .pint (count_lines (dictGetD data "serviceLines" (.pstr "")) : Nat)),
     ("client_count",
       .pint (count_lines (dictGetD data "topClients" (.pstr "")) : Nat)),
     ("has_description", .pbool ((dictGet data "companyDescription").truthy &&
        decide ((pyStr (dictGetD data "companyDescription"
          (.pstr ""))).length > 50))),
     ("description_length",
       .pint ((pyStr (dictGetD data "companyDescription"
         (.pstr ""))).length : Nat)),
     ("highlight_count",
       .pint (count_lines (dictGetD data "investmentHighlights"
         (.pstr "")) : Nat)),
     ("has_margins", .pbool (pyOr (dictGet data "ebitdaMarginFY25")
        (dictGet data "grossMargin")).truthy),
     ("case_study_count", .pint (case_study_count : Nat))]
  some (
    if slide_type == "executive-summary" then
      base ++
        [("has_founder", .pbool (dictGet data "founderName").truthy),
         ("has_employees", .pbool (dictGet data "employeeCountFT").truthy)]
    else if slide_type == "services" then
      base ++ [("has_products", .pbool ((dictGet data "products").truthy &&
        !(pyStripChars (pyStr (dictGetD data "products"
          (.pstr ""))).data).isEmpty))]
    else if slide_type == "clients" then
      base ++
        [("has_verticals", .pbool ((dictGet data "otherVerticals").truthy &&
           !(pyStripChars (pyStr (dictGetD data "otherVerticals"
             (.pstr ""))).data).isEmpty)),
         ("has_partners", .pbool (dictGet data "techPartnerships").truthy)]
    else if slide_type == "financials" then
      base ++ [("has_service_revenue",
        .pbool (dictGet data "revenueByService").truthy)]
    else if slide_type == "growth" then
      base ++
        [("has_drivers", .pbool (dictGet data "growthDrivers").truthy),
         ("has_goals", .pbool (pyOr (dictGet data "shortTermGoals")
            (dictGet data "mediumTermGoals")).truthy)]
    else base)

/-- `data_preview.get(key, 0)` as used in the integer comparisons of
`get_default_layout_recommendation`.  `build_data_preview` stores only
ints at the consulted keys (`highlight_count`, `service_count`,
`client_count`), so the non-numeric arms are unreachable there. -/
def previewCountInt (p : List (String × PyVal)) (k : String) : Int :=
  match p.find? (fun kv => kv.1 == k) with
  | some (_, .pint n) => n
  | some (_, .pbool b) => if b then 1 else 0
  | some _ => 0
  | none => 0

/-- `get_default_layout_recommendation(slide_type, data_preview)` from
`src/server/utils.py`: the per-slide defaults table (the source builds
the whole dict and then indexes it; the resulting value per slide type
is this case split). -/
def get_default_layout_recommendation (slide_type : String)
    (data_preview : List (String × PyVal)) : List (String × PyVal) :=
  if slide_type == "executive-summary" then
    [("chart_type", .pstr "bar"), ("layout", .pstr "two-column"),
     ("font_adjustment", .pint 0), ("content_density", .pstr "medium"),
     ("primary_emphasis", .pstr "mixed")]
  else if slide_type == "investment-highlights" then
    [("chart_type", .pstr "none"), ("layout", .pstr "grid-2x2"),
     ("font_adjustment",
       .pint (if previewCountInt data_preview "highlight_count" > 6
         then -1 else 0)),
     ("content_density",
       .pstr (if previewCountInt data_preview "highlight_count" > 6
         then "high" else "medium")),
     ("primary_emphasis", .pstr "text")]
  else if slide_type == "services" then
    [("chart_type",
       .pstr (if previewCountInt data_preview "service_count" ≤ 4
         then "donut" else "pie")),
     ("layout", .pstr "two-column"), ("font_adjustment", .pint 0),
     ("content_density", .pstr "medium"),
     ("primary_emphasis", .pstr "mixed")]
  else if slide_type == "clients" then
    [("chart_type", .pstr "donut"),
     ("layout", .pstr "two-column-wide-right"),
     ("font_adjustment",
       .pint (if previewCountInt data_preview "client_count" > 9
         then -1 else 0)),
     ("content_density",
       .pstr (if previewCountInt data_preview "client_count" > 9
         then "high" else "medium")),
     ("primary_emphasis", .pstr "mixed")]
  else if slide_type == "financials" then
    [("chart_type", .pstr "bar"), ("layout", .pstr "two-column"),
     ("font_adjustment", .pint 0), ("content_density", .pstr "medium"),
     ("primary_emphasis", .pstr "chart")]
  else if slide_type == "case-study" then
    [("chart_type", .pstr "none"), ("layout", .pstr "full-width"),
     ("font_adjustment", .pint 0), ("content_density", .pstr "medium"),
     ("primary_emphasis", .pstr "text")]
  else if slide_type == "growth" then
    [("chart_type", .pstr "timeline"), ("layout", .pstr "two-column"),
     ("font_adjustment", .pint 0), ("content_density", .pstr "medium"),
     ("primary_emphasis", .pstr "mixed")]
  else if slide_type == "market-position" then
    [("chart_type", .pstr "bar"), ("layout", .pstr "two-column"),
     ("font_adjustment", .pint 0), ("content_density", .pstr "medium"),
     ("primary_emphasis", .pstr "mixed")]
  else if slide_type == "synergies" then
    [("chart_type", .pstr "none"), ("layout", .pstr "two-column"),
     ("font_adjustment", .pint 0), ("content_density", .pstr "medium"),
     ("primary_emphasis", .pstr "text")]
  else
    [("chart_type", .pstr "none"), ("layout", .pstr "two-column"),
     ("font_adjustment", .pint 0), ("content_density", .pstr "medium"),
     ("primary_emphasis", .pstr "text")]

/-- The environment `analyze_data_for_layout_sync` consults:
`os.environ.get("ANTHROPIC_API_KEY")` and
`os.environ.get("DISABLE_AI_LAYOUT")`. -/
structure AiEnv where
  anthropic_api_key : Option String
  disable_ai_layout : Option String

/-- Truthiness of an optional environment string (`not api_key`). -/
def envStrTruthy : Option String → Bool
  | none => false
  | some s => s != ""

/-- `not api_key or os.environ.get("DISABLE_AI_LAYOUT") == "true"`. -/
def aiDisabled (env : AiEnv) : Bool :=
  !(envStrTruthy env.anthropic_api_key) ||
    (match env.disable_ai_layout with
     | some s => s == "true"
     | none => false)

/-- Outcome of the external `client.messages.create` call: an exception
of any kind, or the reply text `response.content[0].text`. -/
inductive ExtCallResult where
  | raised : ExtCallResult
  | ok : String → ExtCallResult

/-- The regex extraction `re.search(r"\x7b[\s\S]*?\x7d", text)`: the
substring from the first open brace to the first close brace after it,
`none` when no such pair exists. -/
def extractFirstJsonObject (s : String) : Option String :=
  let rest := s.data.dropWhile (fun c => !(c == openBraceChar))
  match rest with
  | [] => none
  | b :: tail =>
    let mid := tail.takeWhile (fun c => !(c == closeBraceChar))
    let rest2 := tail.dropWhile (fun c => !(c == closeBraceChar))
    match rest2 with
    | [] => none
    | _ :: _ => some (String.mk (b :: mid ++ [closeBraceChar]))

/-- JSON whitespace skipping. -/
def jsonSkipWs (l : List Char) : List Char :=
  l.dropWhile (fun c => c == ' ' || c == '\t' || c == '\n' || c == '\r')

/-- Parse a JSON string body after the opening quote, handling the
basic escapes; `\u` escapes are outside this model. -/
def parseJsonString : List Char → Option (List Char × List Char)
  | [] => none
  | c :: rest =>
    if c == '"' then some ([], rest)
    else if c == '\\' then
      match rest with
      | [] => none
      | e :: rest2 =>
        let esc : Option Char :=
          if e == '"' then some '"'
          else if e == '\\' then some '\\'
          else if e == '/' then some '/'
          else if e == 'n' then some '\n'
          else if e == 't' then some '\t'
          else if e == 'r' then some '\r'
          else if e == 'b' then some (Char.ofNat 8)
          else if e == 'f' then some (Char.ofNat 12)
          else none
        match esc with
        | none => none
        | some ec =>
          match parseJsonString rest2 with
          | none => none
          | some (content, rem) => some (ec :: content, rem)
    else
      match parseJsonString rest with
      | none => none
      | some (content, rem) => some (c :: content, rem)

/-- Parse a JSON integer (floats are outside this model: a fractional
or exponent part makes the parse fail, where Python would produce a
float; no claim depends on float-valued JSON). -/
def parseJsonInt (l : List Char) : Option (Int × List Char) :=
  let sign := match l with
    | '-' :: rest => (true, rest)
    | _ => (false, l)
  let digits := sign.2.takeWhile Char.isDigit
  let rest := sign.2.dropWhile Char.isDigit
  if digits.isEmpty then none
  else
    match rest with
    | '.' :: _ => none
    | 'e' :: _ => none
    | 'E' :: _ => none
    | _ =>
      let n : Nat := digits.foldl (fun acc c => acc * 10 + (c.toNat - 48)) 0
      some (if sign.1 then -(n : Int) else (n : Int), rest)

/-- Python dict insertion while parsing an object: a duplicate key
overwrites in place. -/
def jsonObjInsert (kvs : List (String × PyVal)) (k : String) (v : PyVal) :
    List (String × PyVal) :=
  if kvs.any (fun kv => kv.1 == k) then
    kvs.map (fun kv => if kv.1 == k then (k, v) else kv)
  else kvs ++ [(k, v)]

mutual

/-- Recursive-descent JSON value parser (fuel-driven; the fuel passed
by `jsonLoads` always suffices). -/
def parseJsonValue : Nat → List Char → Option (PyVal × List Char)
  | 0, _ => none
  | fuel + 1, l =>
    match jsonSkipWs l with
    | [] => none
    | c :: rest =>
      if c == 'n' then
        match jsonSkipWs l with
        | 'n' :: 'u' :: 'l' :: 'l' :: rem => some (.pnone, rem)
        | _ => none
      else if c == 't' then
        match jsonSkipWs l with
        | 't' :: 'r' :: 'u' :: 'e' :: rem => some (.pbool true, rem)
        | _ => none
      else if c == 'f' then
        match jsonSkipWs l with
        | 'f' :: 'a' :: 'l' :: 's' :: 'e' :: rem => some (.pbool false, rem)
        | _ => none
      else if c == '"' then
        match parseJsonString rest with
        | some (content, rem) => some (.pstr (String.mk content), rem)
        | none => none
      else if c == '[' then
        match jsonSkipWs rest with
        | ']' :: rem => some (.plist [], rem)
        | l2 => parseJsonArrayRest fuel l2 []
      else if c == openBraceChar then
        match jsonSkipWs rest with
        | c2 :: rem =>
          if c2 == closeBraceChar then some (.pdict [], rem)
          else parseJsonObjectRest fuel (c2 :: rem) []
        | [] => none
      else
        match parseJsonInt (c :: rest) with
        | some (n, rem) => some (.pint n, rem)
        | none => none

/-- Items of a non-empty JSON array. -/
def parseJsonArrayRest (fuel : Nat) (l : List Char) (acc : List PyVal) :
    Option (PyVal × List Char) :=
  match fuel with
  | 0 => none
  | fuel + 1 =>
    match parseJsonValue fuel l with
    | none => none
    | some (v, rem) =>
      match jsonSkipWs rem with
      | ',' :: rem2 => parseJsonArrayRest fuel rem2 (acc ++ [v])
      | ']' :: rem2 => some (.plist (acc ++ [v]), rem2)
      | _ => none

/-- Entries of a non-empty JSON object. -/
def parseJsonObjectRest (fuel : Nat) (l : List Char)
    (acc : List (String × PyVal)) : Option (PyVal × List Char) :=
  match fuel with
  | 0 => none
  | fuel + 1 =>
    match jsonSkipWs l with
    | '"' :: rest =>
      match parseJsonString rest with
      | none => none
      | some (key, rem) =>
        match jsonSkipWs rem with
        | ':' :: rem2 =>
          match parseJsonValue fuel rem2 with
          | none => none
          | some (v, rem3) =>
            match jsonSkipWs rem3 with
            | ',' :: rem4 =>
              parseJsonObjectRest fuel rem4
                (jsonObjInsert acc (String.mk key) v)
            | c :: rem4 =>
              if c == closeBraceChar then
                some (.pdict (jsonObjInsert acc (String.mk key) v), rem4)
              else none
            | [] => none
        | _ => none
    | _ => none

end

/-- `json.loads` (restricted to the JSON subset documented above):
parse one value and require only whitespace to remain. -/
def jsonLoads (s : String) : Option PyVal :=
  match parseJsonValue (s.length * 4 + 16) s.data with
  | some (v, rem) => if (jsonSkipWs rem).isEmpty then some v else none
  | none => none

/-- The error-path preview installed when `build_data_preview` raises. -/
def fallbackPreview : List (String × PyVal) :=
  [("service_count", .pint 0), ("client_count", .pint 0),
   ("highlight_count", .pint 0)]

/-- The `data_preview` value `analyze_data_for_layout_sync` computes
(the `try/except` around `build_data_preview`). -/
def effectivePreview (data : InputRecord) (slide_type : String) :
    List (String × PyVal) :=
  match build_data_preview data slide_type with
  | some p => p
  | none => fallbackPreview

/-- `analyze_data_for_layout_sync(data, slide_type)` from
`src/server/ai_layout_engine.py`, with the environment and the outcome
of the external call made explicit.  When the strategy is enabled and
the reply contains a brace-delimited substring that parses as JSON, the
parsed object is returned as-is (no validation); every other path
returns the heuristic default.  The usage-tracker side effect does not
affect the returned value and is outside this model. -/
def analyze_data_for_layout_sync (env : AiEnv) (ext : ExtCallResult)
    (data : InputRecord) (slide_type : String) : List (String × PyVal) :=
  let data_preview := effectivePreview data slide_type
  if aiDisabled env then
    get_default_layout_recommendation slide_type data_preview
  else
    match ext with
    | .raised => get_default_layout_recommendation slide_type data_preview
    | .ok text =>
      match extractFirstJsonObject text with
      | some objStr =>
        match jsonLoads objStr with
        | some (.pdict kvs) => kvs
        | _ => get_default_layout_recommendation slide_type data_preview
      | none => get_default_layout_recommendation slide_type data_preview

/-- The heuristic strategy as the spec words it (its second,
spec-facing definition for the refinement claim): build the data-shape
preview for the slide and look up the per-slide defaults table. -/
def heuristicRecommend (data : InputRecord) (slide_type : String) :
    List (String × PyVal) :=
  get_default_layout_recommendation slide_type
    (effectivePreview data slide_type)

/-- Allowed `chart_type` values (spec §3, LayoutRecommendation). -/
def CHART_TYPES : List String :=
  ["bar", "pie", "donut", "progress", "timeline", "stacked-bar", "line",
   "none"]

/-- Allowed `layout` values. -/
def LAYOUTS : List String :=
  ["full-width", "two-column", "two-column-wide-left",
   "two-column-wide-right", "grid-2x2", "grid-2x3"]

/-- Allowed `content_density` values. -/
def DENSITIES : List String := ["low", "medium", "high"]

/-- Allowed `primary_emphasis` values. -/
def EMPHASES : List String := ["metrics", "chart", "text", "mixed"]

/-- The validity predicate of claim C4: every enumerated field of the
recommendation dict is drawn from its allowed set, and
`font_adjustment` is a small integer (within -2..2). -/
def validLayoutRec (r : List (String × PyVal)) : Bool :=
  (match dictGet r "chart_type" with
   | .pstr s => CHART_TYPES.contains s
   | _ => false) &&
  (match dictGet r "layout" with
   | .pstr s => LAYOUTS.contains s
   | _ => false) &&
  (match dictGet r "content_density" with
   | .pstr s => DENSITIES.contains s
   | _ => false) &&
  (match dictGet r "primary_emphasis" with
   | .pstr s => EMPHASES.contains s
   | _ => false) &&
  (match dictGet r "font_adjustment" with
   | .pint n => decide (-2 ≤ n) && decide (n ≤ 2)
   | _ => false)

/-- The failure condition of the external parse path: the call raised,
no brace-delimited substring exists, or it does not parse as a JSON
object. -/
def extParseFails (ext : ExtCallResult) : Prop :=
  match ext with
  | .raised => True
  | .ok text =>
    match extractFirstJsonObject text with
    | none => True
    | some objStr =>
      match jsonLoads objStr with
      | some (.pdict _) => False
      | _ => True

/-! ## Dual-casing lookups (`src/server/pptx_generator.py`,
`generate_presentation`) -/

/-- Python `str.lower()` (ASCII model). -/
def pyLower (s : String) : String := String.mk (s.data.map Char.toLower)

/-- The document-type resolution of `generate_presentation`:
`(data.get("documentType") or data.get("document_type") or
"management-presentation").lower()`, normalized to the known catalog
keys with the management-presentation fallback.  `none` models the
`AttributeError` of `.lower()` on a non-string value. -/
def generateDocType (data : InputRecord) : Option String :=
  match pyOr (pyOr (dictGet data "documentType")
      (dictGet data "document_type")) (.pstr "management-presentation") with
  | .pstr s =>
    some (
      if ["management-presentation", "cim", "teaser"].contains (pyLower s)
      then pyLower s
      else "management-presentation")
  | _ => none

/-! # Theorems -/

/-! ## Resolver lemmas -/

theorem pyInStr_isSome_of_containerish (x : String) {v : PyVal}
    (h : containerish v = true) : ∃ b, pyInStr x v = some b := by
  cases v <;> first
    | exact ⟨_, rfl⟩
    | simp [containerish] at h

theorem pyLen_isSome_of_containerish {v : PyVal}
    (h : containerish v = true) : ∃ n, pyLen v = some n := by
  cases v <;> first
    | exact ⟨_, rfl⟩
    | simp [containerish] at h

theorem existsSome_ite (c : Bool) (x y : Option Bool) (hx : ∃ b, x = some b)
    (hy : ∃ b, y = some b) : ∃ b, (if c = true then x else y) = some b := by
  cases c
  · simpa using hy
  · simpa using hx

theorem existsSome_ite_false (x y : Option Bool) (hy : ∃ b, y = some b) :
    ∃ b, (if false = true then x else y) = some b := by
  simpa using hy

set_option maxHeartbeats 1000000 in
theorem shouldInclude_isSome (st : String) (d : InputRecord)
    (h : st ≠ "appendix-case-studies") :
    ∃ b, shouldIncludeOptionalSlide st d = some b := by
  have hb : (st == "appendix-case-studies") = false := by
    simpa using h
  unfold shouldIncludeOptionalSlide
  rw [hb]
  repeat
    first
      | exact ⟨_, rfl⟩
      | refine existsSome_ite_false _ _ ?_
      | refine existsSome_ite _ _ _ ⟨_, rfl⟩ ?_

theorem mainSlideLoop_isSome (req opt : List String) (d : InputRecord)
    (hopt : opt.contains "appendix-case-studies" = false) :
    ∀ l, ∃ s, mainSlideLoop req opt d l = some s := by
  intro l
  induction l with
  | nil => exact ⟨[], rfl⟩
  | cons st rest ih =>
    obtain ⟨tail, htail⟩ := ih
    by_cases h1 : st ∈ req
    · exact ⟨st :: tail, by simp [mainSlideLoop, h1, htail]⟩
    · by_cases h2 : st ∈ opt
      · have hne : st ≠ "appendix-case-studies" := by
          intro he
          subst he
          simp at hopt
          exact hopt h2
        obtain ⟨b, hb⟩ := shouldInclude_isSome st d hne
        exact ⟨if b then st :: tail else tail,
          by simp [mainSlideLoop, h1, h2, hb, htail]⟩
      · exact ⟨tail, by simp [mainSlideLoop, h1, h2, htail]⟩

theorem mainSlideLoop_sublist (req opt : List String) (d : InputRecord) :
    ∀ l s, mainSlideLoop req opt d l = some s → s.Sublist l := by
  intro l
  induction l with
  | nil =>
    intro s h
    simp only [mainSlideLoop, Option.some.injEq] at h
    exact h ▸ List.Sublist.refl []
  | cons st rest ih =>
    intro s h
    simp only [mainSlideLoop] at h
    split at h
    · obtain ⟨tail, htail, rfl⟩ := Option.map_eq_some'.mp h
      exact (ih tail htail).cons₂ st
    · split at h
      · obtain ⟨b, hb, h2⟩ := Option.bind_eq_some.mp h
        obtain ⟨tail, htail, h3⟩ := Option.bind_eq_some.mp h2
        obtain rfl : (if b then st :: tail else tail) = s := by
          simpa using h3
        by_cases hbb : b
        · simpa [hbb] using (ih tail htail).cons₂ st
        · simpa [hbb] using (ih tail htail).cons st
      · exact (ih s h).cons st

theorem mainSlideLoop_required_mem (req opt : List String) (d : InputRecord) :
    ∀ l s, mainSlideLoop req opt d l = some s →
      ∀ x, x ∈ l → req.contains x = true → x ∈ s := by
  intro l
  induction l with
  | nil => intro s _ x hx; exact absurd hx (List.not_mem_nil x)
  | cons st rest ih =>
    intro s h x hx hreq
    simp only [mainSlideLoop] at h
    rcases List.mem_cons.mp hx with rfl | hx
    · split at h
      · obtain ⟨tail, _, rfl⟩ := Option.map_eq_some'.mp h
        exact List.mem_cons_self x tail
      · rename_i hneg
        exact absurd hreq hneg
    · split at h
      · obtain ⟨tail, htail, rfl⟩ := Option.map_eq_some'.mp h
        exact List.mem_cons_of_mem st (ih tail htail x hx hreq)
      · split at h
        · obtain ⟨b, _, h2⟩ := Option.bind_eq_some.mp h
          obtain ⟨tail, htail, h3⟩ := Option.bind_eq_some.mp h2
          obtain rfl : (if b then st :: tail else tail) = s := by simpa using h3
          have := ih tail htail x hx hreq
          by_cases hbb : b
          · simpa [hbb] using List.mem_cons_of_mem st this
          · simpa [hbb] using this
        · exact ih s h x hx hreq

theorem ResolverInv.step_append {req main allowed s t : List String} {x : String}
    (hinv : ResolverInv req main allowed s)
    (ht : t = s ++ [x] ∨ t = s)
    (hxA : x ∉ allowed) (hxO : MAIN_SLIDE_ORDER.contains x = false) :
    ResolverInv req main (allowed ++ [x]) t := by
  have hxs : x ∉ s := fun hx => hxA (hinv.subAllowed x hx)
  rcases ht with rfl | rfl
  · exact
      { nodup := by
          rw [List.nodup_append]
          refine ⟨hinv.nodup, List.nodup_singleton x, ?_⟩
          intro a ha hax
          rw [List.mem_singleton] at hax
          subst hax
          exact hxs ha
        mem_main := fun y hy => List.mem_append_left _ (hinv.mem_main y hy)
        filter_eq := by
          rw [List.filter_append, hinv.filter_eq]
          have hxO2 : x ∉ MAIN_SLIDE_ORDER := by simpa using hxO
          have hnil :
              List.filter
                (fun z => req.contains z && MAIN_SLIDE_ORDER.contains z) [x]
                = [] := by
            simp [List.filter_singleton, hxO2]
          rw [hnil, List.append_nil]
        subAllowed := fun y hy => by
          rcases List.mem_append.mp hy with h | h
          · exact List.mem_append_left _ (hinv.subAllowed y h)
          · exact List.mem_append_right _ h }
  · exact
      { nodup := hinv.nodup
        mem_main := hinv.mem_main
        filter_eq := hinv.filter_eq
        subAllowed := fun y hy => List.mem_append_left _ (hinv.subAllowed y hy) }

theorem ResolverInv.step_appendIfNew {req main allowed s t : List String}
    {y : String}
    (hinv : ResolverInv req main allowed s)
    (ht : t = appendIfNew s y ∨ t = s)
    (hyA : y ∈ allowed)
    (hreqm : req.contains y = true → y ∈ main) :
    ResolverInv req main allowed t := by
  rcases ht with rfl | rfl
  · unfold appendIfNew
    by_cases hc : s.contains y
    · rw [if_pos hc]
      exact hinv
    · rw [if_neg hc]
      have hys : y ∉ s := by simpa using hc
      have hreqy : req.contains y = false := by
        cases hcr : req.contains y
        · rfl
        · exact absurd (hinv.mem_main y (hreqm hcr)) hys
      exact
        { nodup := by
            rw [List.nodup_append]
            refine ⟨hinv.nodup, List.nodup_singleton y, ?_⟩
            intro a ha hay
            rw [List.mem_singleton] at hay
            subst hay
            exact hys ha
          mem_main := fun z hz => List.mem_append_left _ (hinv.mem_main z hz)
          filter_eq := by
            rw [List.filter_append, hinv.filter_eq]
            have hreqy2 : y ∉ req := by simpa using hreqy
            have hnil :
                List.filter
                  (fun z => req.contains z && MAIN_SLIDE_ORDER.contains z) [y]
                  = [] := by
              simp [List.filter_singleton, hreqy2]
            rw [hnil, List.append_nil]
          subAllowed := fun z hz => by
            rcases List.mem_append.mp hz with h | h
            · exact hinv.subAllowed z h
            · rw [List.mem_singleton] at h
              subst h
              exact hyA }
  · exact hinv

theorem resolver_stages_props (req main s1 s2 s3 s4 s5 : List String)
    (hsub : main.Sublist MAIN_SLIDE_ORDER)
    (hreqmem : ∀ x, x ∈ MAIN_SLIDE_ORDER → req.contains x = true → x ∈ main)
    (h1 : s1 = main ++ ["appendix-financials"] ∨ s1 = main)
    (h2 : s2 = s1 ++ ["appendix-case-studies"] ∨ s2 = s1)
    (h3 : s3 = s2 ++ ["appendix-team-bios"] ∨ s3 = s2)
    (h4 : s4 = appendIfNew s3 "synergies" ∨ s4 = s3)
    (h5 : s5 = appendIfNew s4 "market-position" ∨ s5 = s4) :
    (s5 ++ ["thank-you"]).Nodup ∧
    (s5 ++ ["thank-you"]).getLast? = some "thank-you" ∧
    (s5 ++ ["thank-you"]).count "thank-you" = 1 ∧
    (∀ x, x ∈ MAIN_SLIDE_ORDER → req.contains x = true →
      x ∈ s5 ++ ["thank-you"]) ∧
    ((s5 ++ ["thank-you"]).filter
        (fun x => req.contains x && MAIN_SLIDE_ORDER.contains x)).Sublist
      MAIN_SLIDE_ORDER := by
  have inv0 : ResolverInv req main MAIN_SLIDE_ORDER main :=
    { nodup := (by decide : MAIN_SLIDE_ORDER.Nodup).sublist hsub
      mem_main := fun x hx => hx
      filter_eq := rfl
      subAllowed := fun x hx => hsub.subset hx }
  have inv1 := inv0.step_append h1 (by decide) (by decide)
  have inv2 := inv1.step_append h2 (by decide) (by decide)
  have inv3 := inv2.step_append h3 (by decide) (by decide)
  have inv4 := inv3.step_appendIfNew h4 (by decide)
    (fun hr => hreqmem "synergies" (by decide) hr)
  have inv5 := inv4.step_appendIfNew h5 (by decide)
    (fun hr => hreqmem "market-position" (by decide) hr)
  have hty : "thank-you" ∉ s5 := by
    intro hx
    have hmem := inv5.subAllowed _ hx
    revert hmem
    decide
  refine ⟨?_, ?_, ?_, ?_, ?_⟩
  · rw [List.nodup_append]
    refine ⟨inv5.nodup, List.nodup_singleton _, ?_⟩
    intro a ha hax
    rw [List.mem_singleton] at hax
    subst hax
    exact hty ha
  · exact List.getLast?_concat _
  · rw [List.count_append, List.count_eq_zero.mpr hty]
    simp
  · intro x hxO hxr
    exact List.mem_append_left _ (inv5.mem_main x (hreqmem x hxO hxr))
  · rw [List.filter_append]
    have hnil :
        List.filter
          (fun x => req.contains x && MAIN_SLIDE_ORDER.contains x)
          ["thank-you"] = [] := by
      simp [List.filter_singleton,
        (by decide : "thank-you" ∉ MAIN_SLIDE_ORDER)]
    rw [hnil, List.append_nil, inv5.filter_eq]
    exact (List.filter_sublist main).trans hsub

theorem documentConfigsGet_cases (T : String) :
    documentConfigsGet T = managementPresentationConfig ∨
    documentConfigsGet T = cimConfig ∨
    documentConfigsGet T = teaserConfig := by
  unfold documentConfigsGet
  rcases hf : DOCUMENT_CONFIGS.find? (fun kv => kv.1 == T) with _ | kv
  · rw [hf]
    exact Or.inl rfl
  · rw [hf]
    have hkv := List.mem_of_find?_eq_some hf
    simp only [DOCUMENT_CONFIGS, List.mem_cons, List.mem_singleton,
      List.not_mem_nil, or_false] at hkv
    rcases hkv with h | h | h <;> subst h
    · exact Or.inl rfl
    · exact Or.inr (Or.inl rfl)
    · exact Or.inr (Or.inr rfl)

theorem configsGet_no_appendix_cs (T : String) :
    (documentConfigsGet T).optional_slides.contains "appendix-case-studies"
      = false := by
  rcases documentConfigsGet_cases T with h | h | h <;> rw [h] <;> decide

/-- Shared workhorse for the resolver claims: on any record whose
`includeAppendix`, `caseStudies` and `generateVariants` fields hold
container values (if present), the resolver succeeds and its output is
duplicate-free, ends in exactly one "thank-you", contains every
required slide known to the ordering table, and keeps those required
slides in table order. -/
theorem getSlides_spec (T : String) (d : InputRecord)
    (hApp : containerish (dictGetD d "includeAppendix" (.plist [])) = true)
    (hCs : containerish (pyOr (dictGet d "caseStudies") (.plist [])) = true)
    (hVar : containerish (dictGetD d "generateVariants" (.plist [])) = true) :
    ∃ s, getSlidesForDocumentType T d = some s ∧
      s.Nodup ∧
      s.getLast? = some "thank-you" ∧
      s.count "thank-you" = 1 ∧
      (∀ x, x ∈ MAIN_SLIDE_ORDER →
        (documentConfigsGet T).required_slides.contains x = true → x ∈ s) ∧
      (s.filter (fun x => (documentConfigsGet T).required_slides.contains x
          && MAIN_SLIDE_ORDER.contains x)).Sublist MAIN_SLIDE_ORDER := by
  obtain ⟨main, hmain⟩ := mainSlideLoop_isSome
    (documentConfigsGet T).required_slides (documentConfigsGet T).optional_slides
    d (configsGet_no_appendix_cs T) MAIN_SLIDE_ORDER
  have hsub := mainSlideLoop_sublist _ _ d _ _ hmain
  have hreqmem := mainSlideLoop_required_mem _ _ d _ _ hmain
  obtain ⟨bFin, hbFin⟩ :=
    pyInStr_isSome_of_containerish "financial-detail" hApp
  obtain ⟨bCsx, hbCsx⟩ :=
    pyInStr_isSome_of_containerish "case-studies-extra" hApp
  obtain ⟨nCs, hnCs⟩ := pyLen_isSome_of_containerish hCs
  obtain ⟨bTeam, hbTeam⟩ := pyInStr_isSome_of_containerish "team-bios" hApp
  obtain ⟨bSyn, hbSyn⟩ := pyInStr_isSome_of_containerish "synergy" hVar
  obtain ⟨bMkt, hbMkt⟩ := pyInStr_isSome_of_containerish "market" hVar
  have hbApp : ∃ b,
      ((if bCsx = true then
        (pyLen (pyOr (dictGet d "caseStudies") (.plist []))).map
          (fun n => decide (n > 2))
       else some false) : Option Bool) = some b := by
    cases bCsx
    · exact ⟨false, rfl⟩
    · exact ⟨decide (nCs > 2), by rw [if_pos rfl, hnCs]; rfl⟩
  obtain ⟨bApp, hbAppEq⟩ := hbApp
  simp only [getSlidesForDocumentType, hmain, hbFin, hbCsx, hbAppEq, hbTeam,
    hbSyn, hbMkt, Option.some_bind]
  refine ⟨_, rfl, ?_⟩
  exact resolver_stages_props _ main _ _ _ _ _ hsub
    (fun x hx hr => hreqmem x hx hr)
    (ite_eq_or_eq _ _ _) (ite_eq_or_eq _ _ _) (ite_eq_or_eq _ _ _)
    (ite_eq_or_eq _ _ _) (ite_eq_or_eq _ _ _)

/-! ## Claims about the slide-plan resolver (C1, C2, C3, C7) -/

/-- Claim C1, counterexample to the claim as stated: the claim
quantifies over every `InputRecord` dictionary, but on a record whose
`includeAppendix` field holds a number the source raises `TypeError`
(`"financial-detail" in 3`) instead of returning a list; `none` is this
model of the raised exception. -/
theorem claim_C1_counterexample :
    getSlidesForDocumentType "teaser" [("includeAppendix", PyVal.pint 3)]
      = none := by
  rfl

/-- Claim C1 (amended): for every document type string and every input
record whose `includeAppendix`, `caseStudies` and `generateVariants`
fields hold container values when present (the shape every well-typed
request produces; `len` / `in` raise on anything else), the resolver
terminates without raising and returns a list with no duplicate slide
ids whose last element is "thank-you", occurring exactly once.  The
plan itself has no duplicates at all; the case-study fan-out happens in
the renderer, not in the plan. -/
theorem claim_C1_resolver_nodup_thankYou_last (T : String) (d : InputRecord)
    (hApp : containerish (dictGetD d "includeAppendix" (.plist [])) = true)
    (hCs : containerish (pyOr (dictGet d "caseStudies") (.plist [])) = true)
    (hVar : containerish (dictGetD d "generateVariants" (.plist [])) = true) :
    ∃ s, getSlidesForDocumentType T d = some s ∧ s.Nodup ∧
      s.getLast? = some "thank-you" ∧ s.count "thank-you" = 1 := by
  obtain ⟨s, h1, h2, h3, h4, _, _⟩ := getSlides_spec T d hApp hCs hVar
  exact ⟨s, h1, h2, h3, h4⟩

/-- Claim C1, witness: the amended theorem applied at the concrete input
`("teaser", empty record)`. -/
theorem claim_C1_witness :
    ∃ s, getSlidesForDocumentType "teaser" [] = some s ∧ s.Nodup ∧
      s.getLast? = some "thank-you" ∧ s.count "thank-you" = 1 :=
  claim_C1_resolver_nodup_thankYou_last "teaser" [] (by decide) (by decide)
    (by decide)

/-- Claim C2, counterexample to the claim as stated: "industry" is a
required slide of the cim configuration, but it does not occur in
`MAIN_SLIDE_ORDER`, so the resolver silently drops it — the returned
plan is not a superset of the required slides. -/
theorem claim_C2_counterexample :
    "industry" ∈ cimConfig.required_slides ∧
    documentConfigsGet "cim" = cimConfig ∧
    getSlidesForDocumentType "cim" [] = some
      ["title", "disclaimer", "toc", "executive-summary",
       "investment-highlights", "company-overview", "services", "clients",
       "financials", "growth", "leadership", "synergies", "risks",
       "thank-you"] ∧
    "industry" ∉
      ["title", "disclaimer", "toc", "executive-summary",
       "investment-highlights", "company-overview", "services", "clients",
       "financials", "growth", "leadership", "synergies", "risks",
       "thank-you"] := by
  refine ⟨by decide, by rfl, by rfl, by decide⟩

/-- Claim C2 (amended): for every document type and every
container-typed record, the resolved plan contains "thank-you" and
every required slide of the looked-up configuration that appears in
`MAIN_SLIDE_ORDER`, and those required slides occur in the relative
order of `MAIN_SLIDE_ORDER` (the required-and-ordered subsequence of
the plan is a sublist of the ordering table).  Amended because the cim
required token "industry" is absent from the ordering table and is
silently dropped (see the counterexample). -/
theorem claim_C2_required_slides_in_order (T : String) (d : InputRecord)
    (hApp : containerish (dictGetD d "includeAppendix" (.plist [])) = true)
    (hCs : containerish (pyOr (dictGet d "caseStudies") (.plist [])) = true)
    (hVar : containerish (dictGetD d "generateVariants" (.plist [])) = true) :
    ∃ s, getSlidesForDocumentType T d = some s ∧
      "thank-you" ∈ s ∧
      (∀ x, x ∈ MAIN_SLIDE_ORDER →
        (documentConfigsGet T).required_slides.contains x = true → x ∈ s) ∧
      (s.filter (fun x => (documentConfigsGet T).required_slides.contains x
          && MAIN_SLIDE_ORDER.contains x)).Sublist MAIN_SLIDE_ORDER := by
  obtain ⟨s, h1, _, _, h4, h5, h6⟩ := getSlides_spec T d hApp hCs hVar
  refine ⟨s, h1, ?_, h5, h6⟩
  have hpos : 0 < s.count "thank-you" := by rw [h4]; exact Nat.one_pos
  exact List.count_pos_iff.mp hpos

/-- Claim C2, witness: the amended theorem applied at
`("management-presentation", empty record)`. -/
theorem claim_C2_witness :
    ∃ s, getSlidesForDocumentType "management-presentation" [] = some s ∧
      "thank-you" ∈ s ∧
      (∀ x, x ∈ MAIN_SLIDE_ORDER →
        (documentConfigsGet "management-presentation").required_slides.contains
          x = true → x ∈ s) ∧
      (s.filter (fun x =>
          (documentConfigsGet "management-presentation").required_slides.contains
            x && MAIN_SLIDE_ORDER.contains x)).Sublist MAIN_SLIDE_ORDER :=
  claim_C2_required_slides_in_order "management-presentation" []
    (by decide) (by decide) (by decide)

/-- Claim C3, counterexample to the claim as stated: in scenario B the
plan does not include "case-study" (the cim optional set spells the
token "case-studies", which never occurs in `MAIN_SLIDE_ORDER`, and
"case-study" is in neither the required nor the optional set of cim),
and the cim configuration has `max_case_studies = 5`, not the claimed 2. -/
theorem claim_C3_counterexample :
    getSlidesForDocumentType "cim" cimScenarioB = some
      ["title", "disclaimer", "toc", "executive-summary",
       "investment-highlights", "company-overview", "services", "clients",
       "financials", "growth", "leadership", "synergies", "risks",
       "appendix-case-studies", "thank-you"] ∧
    "case-study" ∉
      ["title", "disclaimer", "toc", "executive-summary",
       "investment-highlights", "company-overview", "services", "clients",
       "financials", "growth", "leadership", "synergies", "risks",
       "appendix-case-studies", "thank-you"] ∧
    cimConfig.max_case_studies = 5 := by
  refine ⟨by rfl, by decide, by rfl⟩

/-- Claim C3 (amended): for document type "cim" with a non-empty
`founderName`, four case studies and the "case-studies-extra" appendix
opt-in, the plan includes "leadership" (a cim required slide) and
"appendix-case-studies" (since 4 > 2 and the opt-in is set), but it
does not include "case-study", so no case-study fan-out can occur. -/
theorem claim_C3_cim_scenario :
    ∃ s, getSlidesForDocumentType "cim" cimScenarioB = some s ∧
      "leadership" ∈ s ∧ "appendix-case-studies" ∈ s ∧ "case-study" ∉ s := by
  refine ⟨_, rfl, by decide, by decide, by decide⟩

/-- Claim C7: for document type "teaser" and the completely empty
record, the resolver terminates without raising and returns exactly the
teaser required slides in the fixed order followed by "thank-you", with
no optional slide included. -/
theorem claim_C7_teaser_empty_plan :
    getSlidesForDocumentType "teaser" [] = some
      (MAIN_SLIDE_ORDER.filter
        (fun s => teaserConfig.required_slides.contains s) ++ ["thank-you"]) ∧
    MAIN_SLIDE_ORDER.filter
        (fun s => teaserConfig.required_slides.contains s) ++ ["thank-you"]
      = ["title", "disclaimer", "executive-summary", "services", "thank-you"] ∧
    teaserConfig.optional_slides.all (fun s =>
      !(["title", "disclaimer", "executive-summary", "services",
         "thank-you"].contains s)) = true := by
  refine ⟨by rfl, by rfl, by rfl⟩

/-! ## Text-utility lemmas (C10) -/

theorem pyStripChars_length_le (l : List Char) :
    (pyStripChars l).length ≤ l.length := by
  unfold pyStripChars
  rw [List.length_reverse]
  refine le_trans (List.dropWhile_sublist _).length_le ?_
  rw [List.length_reverse]
  exact (List.dropWhile_sublist _).length_le

theorem pyStrip_length_le (s : String) : (pyStrip s).length ≤ s.length :=
  pyStripChars_length_le s.data

theorem pySliceTo_length_le_of_nonneg (l : List Char) {c : Int} (hc : 0 ≤ c) :
    ((pySliceTo l c).length : Int) ≤ c := by
  unfold pySliceTo
  rw [if_neg (not_lt.mpr hc)]
  have h : (l.take c.toNat).length ≤ c.toNat := by
    rw [List.length_take]
    exact min_le_left _ _
  calc ((l.take c.toNat).length : Int) ≤ (c.toNat : Int) := by exact_mod_cast h
    _ = c := Int.toNat_of_nonneg hc

theorem pySliceTo_length_le (l : List Char) (c : Int) :
    (pySliceTo l c).length ≤ l.length := by
  unfold pySliceTo
  split <;> (rw [List.length_take]; exact min_le_right _ _)

theorem pyRfind_le_length_sub_one (l : List Char) (ch : Char) :
    pyRfind l ch ≤ (l.length : Int) - 1 := by
  unfold pyRfind
  rcases h : l.reverse.findIdx? (fun c => c == ch) with _ | i
  · show (-1 : Int) ≤ (l.length : Int) - 1
    have h0 : (0 : Int) ≤ (l.length : Int) := Int.ofNat_nonneg _
    omega
  · show ((l.length - 1 - i : Nat) : Int) ≤ (l.length : Int) - 1
    have hne : l ≠ [] := by
      intro he
      subst he
      simp at h
    have hpos : 0 < l.length := List.length_pos.mpr hne
    have hle : l.length - 1 - i ≤ l.length - 1 := by omega
    have h1 : ((l.length - 1 - i : Nat) : Int) ≤ ((l.length - 1 : Nat) : Int) := by
      exact_mod_cast hle
    have h2 : ((l.length - 1 : Nat) : Int) = (l.length : Int) - 1 := by
      omega
    omega

theorem accumSentences_length_le (max_length : Int) :
    ∀ (sents : List String) (result : String),
      (result.length : Int) ≤ max_length →
      ((accumSentences max_length sents result).length : Int) ≤ max_length := by
  intro sents
  induction sents with
  | nil =>
    intro r h
    simpa [accumSentences] using h
  | cons s rest ih =>
    intro r h
    unfold accumSentences
    split
    · rename_i hfit
      exact ih _ hfit
    · exact h

theorem strip_concat_ellipsis_length (l : List Char) (bound : Int)
    (h : (l.length : Int) ≤ bound) :
    ((String.mk (pyStripChars l) ++ "..").length : Int) ≤ bound + 2 := by
  rw [String.length_append]
  have h1 : (pyStripChars l).length ≤ l.length := pyStripChars_length_le l
  have h2 : (String.mk (pyStripChars l)).length = (pyStripChars l).length := rfl
  have h3 : ("..".length : Int) = 2 := by decide
  push_cast
  omega

theorem truncateWordFallback_length_le (condensed : String) (max_length : Int)
    (h2 : 2 ≤ max_length) :
    ((truncateWordFallback condensed max_length true).length : Int)
      ≤ max_length := by
  unfold truncateWordFallback
  show ((if pyRfind (pySliceTo condensed.data (max_length - 2)) ' ' * 10 >
        (max_length - 2) * 7 then
      String.mk (pyStripChars
        (pySliceTo (pySliceTo condensed.data (max_length - 2))
          (pyRfind (pySliceTo condensed.data (max_length - 2)) ' '))) ++ ".."
    else
      String.mk (pyStripChars
        (pySliceTo condensed.data (max_length - 2))) ++ "..").length : Int)
    ≤ max_length
  have htrlen :
      (((pySliceTo condensed.data (max_length - 2)).length : Int))
        ≤ max_length - 2 :=
    pySliceTo_length_le_of_nonneg _ (by omega)
  split
  · rename_i hgt
    have hls_le :
        pyRfind (pySliceTo condensed.data (max_length - 2)) ' '
          ≤ ((pySliceTo condensed.data (max_length - 2)).length : Int) - 1 :=
      pyRfind_le_length_sub_one _ _
    have hslice :
        (((pySliceTo (pySliceTo condensed.data (max_length - 2))
            (pyRfind (pySliceTo condensed.data (max_length - 2)) ' ')).length
          : Int))
          ≤ pyRfind (pySliceTo condensed.data (max_length - 2)) ' ' :=
      pySliceTo_length_le_of_nonneg _ (by omega)
    exact le_trans (strip_concat_ellipsis_length _ _ hslice) (by omega)
  · exact le_trans (strip_concat_ellipsis_length _ _ htrlen) (by omega)

/-- Claim C10: for every string and every `max_length` of at least 2,
the two-argument form of `truncate_text` (ellipsis enabled, as in every
call site) returns a string of length at most `max_length`: direct
return, condensation, sentence-boundary accumulation, word-boundary
breaking and the appended ".." all stay within the limit. -/
theorem claim_C10_truncate_length_le (text : String) (max_length : Int)
    (h2 : 2 ≤ max_length) :
    ((truncate_text text max_length true).length : Int) ≤ max_length := by
  have h0 : (0 : Int) ≤ max_length := by omega
  unfold truncate_text
  split
  · have hz : ((("" : String).length : Int)) = 0 := rfl
    omega
  · split
    · rename_i hle
      exact hle
    · dsimp only
      split
      · rename_i hcle
        exact hcle
      · split
        · split
          · have hres := accumSentences_length_le max_length
              (findSentences (condense_text text).data) ""
              (by
                have hz : ((("" : String).length : Int)) = 0 := rfl
                omega)
            have hstrip := pyStrip_length_le
              (accumSentences max_length
                (findSentences (condense_text text).data) "")
            have hcast :
                (((pyStrip (accumSentences max_length
                    (findSentences (condense_text text).data) "")).length : Int))
                  ≤ ((accumSentences max_length
                    (findSentences (condense_text text).data) "").length : Int) := by
              exact_mod_cast hstrip
            omega
          · exact truncateWordFallback_length_le _ _ h2
        · exact truncateWordFallback_length_le _ _ h2

/-- Claim C10, witness: the main theorem applied at a concrete long
string and limit 25. -/
theorem claim_C10_witness :
    (2 : Int) ≤ 25 ∧
    ((truncate_text
        "one two three four five six seven eight nine ten" 25 true).length
      : Int) ≤ 25 :=
  ⟨by decide,
   claim_C10_truncate_length_le
     "one two three four five six seven eight nine ten" 25 (by decide)⟩

/-! ## Change-impact lemmas and claims (C6) -/

theorem dictGet_eq_pnone_of_not_mem (d : InputRecord) (k : String)
    (h : k ∉ d.map (fun kv => kv.1)) : dictGet d k = .pnone := by
  have hn : d.find? (fun kv => kv.1 == k) = none :=
    List.find?_eq_none.mpr
      (fun kv hkv hb => h (List.mem_map.mpr ⟨kv, hkv, eq_of_beq hb⟩))
  unfold dictGet
  rw [hn]

theorem diff_pred_old_present (v : PyVal)
    (h1 : v.beqStrict .pnone = false)
    (h2 : v.beqStrict (.plist []) = false)
    (h3 : v.beqStrict (.pdict []) = false) :
    (if isListOrDict v || isListOrDict .pnone then jsonReprNe v .pnone
     else !(v.pyEq .pnone)) = true := by
  cases v with
  | pnone => simp [PyVal.beqStrict] at h1
  | pbool b => rfl
  | pint n => rfl
  | pstr s => rfl
  | plist xs =>
    cases xs with
    | nil => simp [PyVal.beqStrict, PyVal.beqStrict.go] at h2
    | cons a rest =>
      simp [isListOrDict, jsonReprNe, jsonReprForDiff, PyVal.truthy]
  | pdict kvs =>
    cases kvs with
    | nil => simp [PyVal.beqStrict, PyVal.beqStrict.goD] at h3
    | cons a rest =>
      simp [isListOrDict, jsonReprNe, jsonReprForDiff, PyVal.truthy]

theorem diff_pred_new_present (v : PyVal)
    (h1 : v.beqStrict .pnone = false)
    (h2 : v.beqStrict (.plist []) = false)
    (h3 : v.beqStrict (.pdict []) = false) :
    (if isListOrDict .pnone || isListOrDict v then jsonReprNe .pnone v
     else !(PyVal.pyEq .pnone v)) = true := by
  cases v with
  | pnone => simp [PyVal.beqStrict] at h1
  | pbool b => rfl
  | pint n => rfl
  | pstr s => rfl
  | plist xs =>
    cases xs with
    | nil => simp [PyVal.beqStrict, PyVal.beqStrict.go] at h2
    | cons a rest =>
      simp [isListOrDict, jsonReprNe, jsonReprForDiff, PyVal.truthy]
  | pdict kvs =>
    cases kvs with
    | nil => simp [PyVal.beqStrict, PyVal.beqStrict.goD] at h3
    | cons a rest =>
      simp [isListOrDict, jsonReprNe, jsonReprForDiff, PyVal.truthy]

/-- Claim C6, counterexample to the claim as stated: the key "a" is
present in exactly one of the two records (with value `[]`), yet
`detect_changes` reports nothing — the JSON branch serializes both the
absent side (`None`, falsy) and the present empty list (falsy) to the
empty marker, so they compare equal. -/
theorem claim_C6_counterexample :
    ("a" ∈ ([("a", PyVal.plist [])] : InputRecord).map (fun kv => kv.1)) ∧
    ("a" ∉ ([] : InputRecord).map (fun kv => kv.1)) ∧
    detect_changes [] [("a", PyVal.plist [])] = [] := by
  refine ⟨by decide, by decide, by rfl⟩

/-- Claim C6 (amended): a key present in exactly one of the two records
is reported as changed, provided its stored value is not `None` and not
an empty list or empty dict — the three values whose serialization
(respectively scalar comparison) coincides with the absent side. -/
theorem claim_C6_added_or_removed_field_changed
    (old_data new_data : InputRecord) (k : String)
    (h : (k ∈ old_data.map (fun kv => kv.1) ∧
          k ∉ new_data.map (fun kv => kv.1) ∧
          (dictGet old_data k).beqStrict .pnone = false ∧
          (dictGet old_data k).beqStrict (.plist []) = false ∧
          (dictGet old_data k).beqStrict (.pdict []) = false) ∨
         (k ∉ old_data.map (fun kv => kv.1) ∧
          k ∈ new_data.map (fun kv => kv.1) ∧
          (dictGet new_data k).beqStrict .pnone = false ∧
          (dictGet new_data k).beqStrict (.plist []) = false ∧
          (dictGet new_data k).beqStrict (.pdict []) = false)) :
    k ∈ detect_changes old_data new_data := by
  simp only [detect_changes]
  rw [List.mem_filter]
  rcases h with ⟨hin, hout, h1, h2, h3⟩ | ⟨hout, hin, h1, h2, h3⟩
  · refine ⟨List.mem_dedup.mpr (List.mem_append.mpr (Or.inl hin)), ?_⟩
    rw [dictGet_eq_pnone_of_not_mem new_data k hout]
    exact diff_pred_old_present _ h1 h2 h3
  · refine ⟨List.mem_dedup.mpr (List.mem_append.mpr (Or.inr hin)), ?_⟩
    rw [dictGet_eq_pnone_of_not_mem old_data k hout]
    exact diff_pred_new_present _ h1 h2 h3

/-- Claim C6, witness: the amended theorem applied at a concrete pair
of records with "founderName" present only on the old side. -/
theorem claim_C6_witness :
    "founderName" ∈ detect_changes [("founderName", PyVal.pstr "Jane")] [] :=
  claim_C6_added_or_removed_field_changed [("founderName", PyVal.pstr "Jane")]
    [] "founderName"
    (Or.inl ⟨by decide, by decide, by decide, by decide, by decide⟩)

/-! ## Ledger lemmas and claim (C8) -/

theorem roundHalfEven_close (y : ℚ) : |(roundHalfEven y : ℚ) - y| ≤ 1/2 := by
  unfold roundHalfEven
  dsimp only
  have h1 : (⌊y⌋ : ℚ) ≤ y := Int.floor_le y
  have h2 : y < ⌊y⌋ + 1 := Int.lt_floor_add_one y
  split_ifs with hf1 hf2 hf3
  · rw [abs_sub_comm, abs_of_nonneg (by linarith)]
    linarith
  · push_cast
    rw [abs_of_nonneg (by linarith)]
    push_cast at hf2
    linarith
  · rw [abs_sub_comm, abs_of_nonneg (by linarith)]
    push_cast at hf1 hf2
    linarith
  · push_cast
    rw [abs_of_nonneg (by linarith)]
    push_cast at hf1 hf2
    linarith

theorem round6_close (x : ℚ) : |round6 x - x| ≤ 1/2000000 := by
  unfold round6
  have h := roundHalfEven_close (x * 1000000)
  have heq : (roundHalfEven (x * 1000000) : ℚ) / 1000000 - x
      = ((roundHalfEven (x * 1000000) : ℚ) - x * 1000000) / 1000000 := by
    ring
  rw [heq, abs_div]
  have habs : |(1000000 : ℚ)| = 1000000 := by norm_num
  rw [habs]
  rw [div_le_iff₀ (by norm_num : (0:ℚ) < 1000000)]
  calc |(roundHalfEven (x * 1000000) : ℚ) - x * 1000000| ≤ 1/2 := h
    _ = 1/2000000 * 1000000 := by norm_num

theorem runCalls_totals : ∀ (specs : List CallSpec) (s : UsageStats),
    (runCalls s specs).total_calls = s.total_calls + specs.length ∧
    |(runCalls s specs).total_cost_usd -
        (s.total_cost_usd + (specs.map callCost).sum)| ≤
      (specs.length : ℚ) * (1/2000000) := by
  intro specs
  induction specs with
  | nil =>
    intro s
    refine ⟨by simp [runCalls], ?_⟩
    simp [runCalls]
  | cons c rest ih =>
    intro s
    have hfold : runCalls s (c :: rest) = runCalls
        ((track_call s c.now c.model c.input_tokens c.output_tokens
          c.purpose).1) rest := rfl
    obtain ⟨ihc, ihcost⟩ := ih
      ((track_call s c.now c.model c.input_tokens c.output_tokens c.purpose).1)
    have hstep_calls :
        ((track_call s c.now c.model c.input_tokens c.output_tokens
          c.purpose).1).total_calls = s.total_calls + 1 := rfl
    have hstep_cost :
        ((track_call s c.now c.model c.input_tokens c.output_tokens
          c.purpose).1).total_cost_usd
          = round6 (s.total_cost_usd + callCost c) := rfl
    constructor
    · rw [hfold, ihc, hstep_calls, List.length_cons]
      omega
    · rw [hfold]
      have hr := round6_close (s.total_cost_usd + callCost c)
      rw [← hstep_cost] at hr
      have key : (runCalls ((track_call s c.now c.model c.input_tokens
            c.output_tokens c.purpose).1) rest).total_cost_usd -
          (s.total_cost_usd + ((c :: rest).map callCost).sum)
          = ((runCalls ((track_call s c.now c.model c.input_tokens
              c.output_tokens c.purpose).1) rest).total_cost_usd -
            (((track_call s c.now c.model c.input_tokens c.output_tokens
              c.purpose).1).total_cost_usd + (rest.map callCost).sum)) +
            (((track_call s c.now c.model c.input_tokens c.output_tokens
              c.purpose).1).total_cost_usd -
              (s.total_cost_usd + callCost c)) := by
        rw [List.map_cons, List.sum_cons]
        ring
      rw [key]
      refine le_trans (abs_add _ _) ?_
      have hlen : (((c :: rest).length : ℚ)) = (rest.length : ℚ) + 1 := by
        rw [List.length_cons]
        push_cast
        ring
      rw [hlen]
      calc _ ≤ (rest.length : ℚ) * (1/2000000) + 1/2000000 :=
            add_le_add ihcost hr
        _ = ((rest.length : ℚ) + 1) * (1/2000000) := by ring

/-- Claim C8: immediately after `reset()`, `get_stats` reports zero
calls and zero cost; after any sequence of `track_call` invocations
following a reset, `total_calls` equals the number of calls and
`total_cost_usd` equals the sum of the per-call computed costs
(`(input/1000)*input_rate + (output/1000)*output_rate`, unknown models
at the cheapest Haiku tier) up to the accumulated half-ulp rounding of
`round(·, 6)`, at most `n / 2000000` after `n` calls. -/
theorem claim_C8_ledger_reset_and_totals (now : String) (dur : ℚ)
    (specs : List CallSpec) :
    (get_stats (resetStats now) dur).total_calls = 0 ∧
    (get_stats (resetStats now) dur).total_cost_usd = 0 ∧
    (get_stats (runCalls (resetStats now) specs) dur).total_calls
      = specs.length ∧
    |(get_stats (runCalls (resetStats now) specs) dur).total_cost_usd -
        (specs.map callCost).sum| ≤ (specs.length : ℚ) * (1/2000000) := by
  obtain ⟨h1, h2⟩ := runCalls_totals specs (resetStats now)
  refine ⟨rfl, rfl, ?_, ?_⟩
  · show (runCalls (resetStats now) specs).total_calls = specs.length
    rw [h1]
    simp [resetStats]
  · show |(runCalls (resetStats now) specs).total_cost_usd -
        (specs.map callCost).sum| ≤ (specs.length : ℚ) * (1/2000000)
    have hz : (resetStats now).total_cost_usd = 0 := rfl
    rw [hz, zero_add] at h2
    exact h2

/-! ## Layout-recommendation lemmas and claims (C4, C5) -/

theorem validDefault (st : String) (p : List (String × PyVal)) :
    validLayoutRec (get_default_layout_recommendation st p) = true := by
  unfold get_default_layout_recommendation
  split_ifs <;> rfl

/-- Claim C5: whenever the external strategy is disabled (missing or
empty API key, or the DISABLE_AI_LAYOUT flag set to "true") or its call
raises any exception, `analyze_data_for_layout_sync` returns exactly
the heuristic result `get_default_layout_recommendation(slide_type,
data_preview)` for the same inputs. -/
theorem claim_C5_disabled_or_failed_equals_heuristic (env : AiEnv)
    (ext : ExtCallResult) (data : InputRecord) (slide_type : String)
    (h : aiDisabled env = true ∨ ext = ExtCallResult.raised) :
    analyze_data_for_layout_sync env ext data slide_type
      = heuristicRecommend data slide_type := by
  unfold analyze_data_for_layout_sync heuristicRecommend
  dsimp only
  by_cases hd : aiDisabled env = true
  · rw [if_pos hd]
  · rw [if_neg hd]
    rcases h with h | rfl
    · exact absurd h hd
    · rfl

/-- Claim C5, witness: the theorem applied at a concrete disabled
environment with a raised external call. -/
theorem claim_C5_witness :
    analyze_data_for_layout_sync ⟨none, none⟩ ExtCallResult.raised []
      "services" = heuristicRecommend [] "services" :=
  claim_C5_disabled_or_failed_equals_heuristic ⟨none, none⟩
    ExtCallResult.raised [] "services" (Or.inl (by decide))

/-- Claim C4, counterexample to the claim as stated: with the external
strategy enabled and a reply whose brace-delimited substring parses as
JSON, the parsed object is returned without any validation — here a
dict whose `chart_type` is "banana" (not in the allowed set) and whose
other fields are missing entirely. -/
theorem claim_C4_counterexample :
    analyze_data_for_layout_sync ⟨some "k", none⟩
      (ExtCallResult.ok "\x7b\"chart_type\": \"banana\"\x7d") [] "services"
      = [("chart_type", PyVal.pstr "banana")] ∧
    validLayoutRec [("chart_type", PyVal.pstr "banana")] = false := by
  refine ⟨by rfl, by rfl⟩

/-- Claim C4 (amended): `analyze_data_for_layout_sync` never raises
(it is a total function of the environment and call outcome), and on
every path where the external reply is not used — strategy disabled,
call raised, no brace-delimited substring, or JSON parse failure — the
result is the heuristic recommendation, whose enumerated fields are all
drawn from their allowed value sets and whose font adjustment is a
small integer.  A successfully parsed JSON object, however, is returned
as-is, unvalidated (see the counterexample). -/
theorem claim_C4_unused_reply_paths_valid (env : AiEnv)
    (ext : ExtCallResult) (data : InputRecord) (slide_type : String)
    (h : aiDisabled env = true ∨ extParseFails ext) :
    analyze_data_for_layout_sync env ext data slide_type
      = heuristicRecommend data slide_type ∧
    validLayoutRec (analyze_data_for_layout_sync env ext data slide_type)
      = true := by
  have heq : analyze_data_for_layout_sync env ext data slide_type
      = heuristicRecommend data slide_type := by
    unfold analyze_data_for_layout_sync heuristicRecommend
    dsimp only
    by_cases hd : aiDisabled env = true
    · rw [if_pos hd]
    · rw [if_neg hd]
      rcases h with h | hp
      · exact absurd h hd
      · cases ext with
        | raised => rfl
        | ok text =>
          unfold extParseFails at hp
          dsimp only at hp ⊢
          rcases hx : extractFirstJsonObject text with _ | objStr
          · rfl
          · rw [hx] at hp
            dsimp only at hp
            dsimp only
            rcases hl : jsonLoads objStr with _ | v
            · rfl
            · rw [hl] at hp
              cases v with
              | pnone => rfl
              | pbool b => rfl
              | pint n => rfl
              | pstr s => rfl
              | plist xs => rfl
              | pdict kvs => exact hp.elim
  refine ⟨heq, ?_⟩
  rw [heq]
  unfold heuristicRecommend
  exact validDefault _ _

/-- Claim C4, witness: the amended theorem applied at a disabled
environment. -/
theorem claim_C4_witness :
    analyze_data_for_layout_sync ⟨none, none⟩ ExtCallResult.raised []
        "clients" = heuristicRecommend [] "clients" ∧
    validLayoutRec (analyze_data_for_layout_sync ⟨none, none⟩
        ExtCallResult.raised [] "clients") = true :=
  claim_C4_unused_reply_paths_valid ⟨none, none⟩ ExtCallResult.raised []
    "clients" (Or.inl (by decide))

/-! ## Dual-casing claims (C9) -/

/-- Claim C9, counterexample to the claim as stated: the optional-slide
inclusion predicate for "leadership" consults only the camelCase key
`founderName`, so the same founder name stored under `founder_name`
makes the predicate false while the camelCase spelling makes it true —
the lookup is not casing-insensitive. -/
theorem claim_C9_counterexample :
    shouldIncludeOptionalSlide "leadership"
        [("founder_name", PyVal.pstr "Jane Doe")] = some false ∧
    shouldIncludeOptionalSlide "leadership"
        [("founderName", PyVal.pstr "Jane Doe")] = some true := by
  refine ⟨by rfl, by rfl⟩

/-- Claim C9 (amended): the top-level lookups of
`generate_presentation` (here the document-type resolution) do perform
the dual camelCase / snake_case lookup: storing the document type under
either key yields the same resolved type; the resolver's optional-slide
predicates, by contrast, read only camelCase keys (see the
counterexample). -/
theorem claim_C9_doc_type_dual_lookup (s : String) :
    generateDocType [("documentType", PyVal.pstr s)]
      = generateDocType [("document_type", PyVal.pstr s)] := by
  by_cases hs : s = ""
  · subst hs
    rfl
  · simp [generateDocType, dictGet, pyOr, PyVal.truthy, hs]
